import Mathlib

/-!
Verification of the GuruSahaay frontend (Next.js client) against its
natural-language specification.

The development shallowly embeds the TypeScript modules that the claims
concern:

* `src/frontend/src/lib/api.ts` — the fetch-based API client (`apiFetch`,
  `login`, the multipart upload helpers, the auth-token store, and every
  exported API operation, each modelled as the HTTP request it issues);
* `src/frontend/src/app/help/page.tsx` — the help-form submission logic
  (`handleSubmit`) and the submit-button disabled condition;
* `src/frontend/src/app/suggestions/page.tsx` — the suggestions page load
  effect;
* `src/frontend/src/app/community/page.tsx` — the community feed fetch and
  rendering order;
* `src/frontend/src/hooks/useVoiceRecorder.ts` — the voice-recorder state
  machine, including the data-URL / base64 conversion performed on stop;
* `src/frontend/src/context/LanguageContext.tsx` — the translation
  function `t` with nested-key navigation and parameter substitution.

JavaScript strings are modelled as Lean `String`s, `null`/`undefined` as
`Option`, and JS truthiness of a string (`s` is falsy exactly when it is
null, undefined or empty) by `jsTruthyS`.  JSON request bodies are modelled
structurally with a small `Json` inductive; `JSON.stringify` omission of
`undefined`-valued fields is modelled by `optField`.
-/

/-! ## JavaScript value helpers -/

/-- Truthiness of a JS string-or-nullish value: false for `null`,
`undefined` and the empty string. -/
def jsTruthyS (o : Option String) : Bool :=
  o.getD "" != ""

/-- Truthiness of a JS number-or-nullish value: false for `null`,
`undefined` and `0`. -/
def jsTruthyN (o : Option Nat) : Bool :=
  o.getD 0 != 0

/-- JS `a || b` for strings: `b` when `a` is empty (falsy), else `a`. -/
def jsOrStr (a b : String) : String :=
  if a = "" then b else a

/-- JS `a || b` where `a` may be nullish. -/
def jsOrOpt (a : Option String) (b : String) : String :=
  jsOrStr (a.getD "") b

/-- JS `String.prototype.trim`: strip leading and trailing whitespace
(space, tab, CR, LF — the whitespace characters this app's inputs can
contain). -/
def jsTrim (s : String) : String :=
  String.mk
    (((s.data.dropWhile Char.isWhitespace).reverse.dropWhile
        Char.isWhitespace).reverse)

/-! ## JSON and HTTP request model -/

/-- Structural model of a JSON value (request/response bodies). -/
inductive Json where
  | null
  | bool (b : Bool)
  | num (n : Int)
  | str (s : String)
  | arr (elems : List Json)
  | obj (fields : List (String × Json))

/-- Body of an HTTP request: absent, a JSON document, or multipart form
fields (each modelled as a key/value pair of strings). -/
inductive ReqBody where
  | empty
  | json (j : Json)
  | form (fields : List (String × String))

/-- An HTTP request as issued by the client: full URL, method, header list
(in insertion order) and body. -/
structure HttpRequest where
  url : String
  method : String
  headers : List (String × String)
  body : ReqBody

/-- A field of a JSON object that is omitted when the JS value is
`undefined` (mirrors `JSON.stringify` dropping `undefined` properties). -/
def optField (k : String) : Option String → List (String × Json)
  | some s => [(k, Json.str s)]
  | none => []

/-- First value bound to `key` in a JSON object's field list. -/
def lookupJsonField : List (String × Json) → String → Option Json
  | [], _ => none
  | p :: rest, key => if p.1 = key then some p.2 else lookupJsonField rest key

/-! ## api.ts: configuration and the fetch wrapper

`const API_URL = process.env.NEXT_PUBLIC_API_URL || 'http://localhost:8000'`
-/

/-- The configured API base URL; `env` is `process.env.NEXT_PUBLIC_API_URL`. -/
def apiUrl (env : Option String) : String :=
  jsOrOpt env "http://localhost:8000"

/-- The request built by `apiFetch(endpoint, options)` given the stored
auth token: URL is `API_URL + endpoint`; headers are `Content-Type:
application/json` plus `Authorization: Bearer <token>` exactly when the
token is truthy.  (None of the call sites pass extra headers.) -/
def apiFetchRequest (env token : Option String) (endpoint method : String)
    (body : ReqBody) : HttpRequest :=
  let base := [("Content-Type", "application/json")]
  let headers :=
    if jsTruthyS token then
      base ++ [("Authorization", "Bearer " ++ token.getD "")]
    else base
  { url := apiUrl env ++ endpoint, method := method, headers := headers,
    body := body }

/-- An HTTP response as seen by the client: the `ok` flag and the result of
`response.json()` (`Except.error` models a body that is not JSON). -/
structure HttpResponse where
  ok : Bool
  body : Except Unit Json

/-- The `detail` field of a parsed error body, when it is a string. -/
def jsonDetailStr (j : Json) : Option String :=
  match j with
  | Json.obj fields =>
    match lookupJsonField fields "detail" with
    | some (Json.str s) => some s
    | _ => none
  | _ => none

/-- The error message thrown on a non-OK response:
`(await response.json().catch(() => ({ detail: fallback }))).detail || fallback`.
A non-JSON body, a missing `detail`, or a falsy (empty) `detail` all yield
the fallback. -/
def errDetailMsg (fallback : String) (body : Except Unit Json) : String :=
  match body with
  | Except.error _ => fallback
  | Except.ok j =>
    match jsonDetailStr j with
    | some s => jsOrStr s fallback
    | none => fallback

/-- Result of `apiFetch` once the response arrives: non-OK throws the
detail-or-`'Request failed'` message, OK returns the parsed JSON body (an
OK body that is not JSON rejects with a parse error). -/
def apiFetchResult (resp : HttpResponse) : Except String Json :=
  if resp.ok then
    match resp.body with
    | Except.ok j => Except.ok j
    | Except.error _ => Except.error "invalid json"
  else
    Except.error (errDetailMsg "Request failed" resp.body)

/-- A complete `apiFetch` invocation: the list of HTTP requests issued
(always exactly the one request, whatever the outcome) and the result. -/
def apiFetchRun (env token : Option String) (endpoint method : String)
    (body : ReqBody) (resp : HttpResponse) :
    List HttpRequest × Except String Json :=
  ([apiFetchRequest env token endpoint method body], apiFetchResult resp)

/-! ## api.ts: `login` and the multipart upload helpers

These three functions call `fetch` directly instead of going through
`apiFetch`.
-/

/-- The request issued by `login(phone, password)`: no Authorization header
is ever attached, whatever token is stored. -/
def loginRequest (env : Option String) (phone password : String) :
    HttpRequest :=
  { url := apiUrl env ++ "/auth/login", method := "POST",
    headers := [("Content-Type", "application/json")],
    body := ReqBody.json (Json.obj
      [("phone", Json.str phone), ("password", Json.str password)]) }

/-- Result of `login` once the response arrives; the non-OK fallback
message is `'Login failed'`. -/
def loginResult (resp : HttpResponse) : Except String Json :=
  if resp.ok then
    match resp.body with
    | Except.ok j => Except.ok j
    | Except.error _ => Except.error "invalid json"
  else
    Except.error (errDetailMsg "Login failed" resp.body)

/-- A complete `login` invocation: requests issued and result. -/
def loginRun (env : Option String) (phone password : String)
    (resp : HttpResponse) : List HttpRequest × Except String Json :=
  ([loginRequest env phone password], loginResult resp)

/-- The request issued by `uploadContentWithFile(formData)`: only the
Authorization header (when the token is truthy), multipart body. -/
def uploadContentWithFileRequest (env token : Option String)
    (formData : List (String × String)) : HttpRequest :=
  { url := apiUrl env ++ "/content/upload-file", method := "POST",
    headers :=
      if jsTruthyS token then
        [("Authorization", "Bearer " ++ token.getD "")]
      else [],
    body := ReqBody.form formData }

/-- Result of either multipart upload helper; the non-OK fallback message
is `'Upload failed'`. -/
def uploadFileResult (resp : HttpResponse) : Except String Json :=
  if resp.ok then
    match resp.body with
    | Except.ok j => Except.ok j
    | Except.error _ => Except.error "invalid json"
  else
    Except.error (errDetailMsg "Upload failed" resp.body)

/-- The form fields built by `uploadFileToCloudinary`: `file`, `title`,
`concept_id`, `content_type` always, then `description`, `language`,
`help_request_id` each appended only when truthy. -/
def cloudinaryFormFields (file title conceptId contentType : String)
    (description language helpRequestId : Option String) :
    List (String × String) :=
  [("file", file), ("title", title), ("concept_id", conceptId),
   ("content_type", contentType)]
  ++ (if jsTruthyS description then [("description", description.getD "")] else [])
  ++ (if jsTruthyS language then [("language", language.getD "")] else [])
  ++ (if jsTruthyS helpRequestId then [("help_request_id", helpRequestId.getD "")] else [])

/-- The request issued by `uploadFileToCloudinary(data)`. -/
def uploadFileToCloudinaryRequest (env token : Option String)
    (file title conceptId contentType : String)
    (description language helpRequestId : Option String) : HttpRequest :=
  uploadContentWithFileRequest env token
    (cloudinaryFormFields file title conceptId contentType
      description language helpRequestId)

/-- A complete `uploadContentWithFile` invocation. -/
def uploadContentWithFileRun (env token : Option String)
    (formData : List (String × String)) (resp : HttpResponse) :
    List HttpRequest × Except String Json :=
  ([uploadContentWithFileRequest env token formData], uploadFileResult resp)

/-! ## api.ts: request bodies of the POST operations -/

/-- Argument of `register(userData)`. -/
structure RegisterData where
  name : String
  phone : String
  password : String
  language_preference : Option String
  school_name : Option String
  district : Option String
  state : Option String

/-- `JSON.stringify` of the register payload (undefined fields omitted). -/
def RegisterData.toJson (d : RegisterData) : Json :=
  Json.obj ([("name", Json.str d.name), ("phone", Json.str d.phone),
    ("password", Json.str d.password)]
    ++ optField "language_preference" d.language_preference
    ++ optField "school_name" d.school_name
    ++ optField "district" d.district
    ++ optField "state" d.state)

/-- Argument of `createHelpRequest(data)`. -/
structure HelpRequestData where
  query_text : Option String
  audio_base64 : Option String
  request_type : Option String
  category : Option String
  subject : Option String
  grade : Option String

/-- `JSON.stringify` of the help-request payload (undefined fields
omitted; field order fixed by the model). -/
def HelpRequestData.toJson (d : HelpRequestData) : Json :=
  Json.obj (optField "query_text" d.query_text
    ++ (optField "audio_base64" d.audio_base64
    ++ (optField "request_type" d.request_type
    ++ (optField "category" d.category
    ++ (optField "subject" d.subject
    ++ optField "grade" d.grade)))))

/-- Argument of `addHelpResponse(helpRequestId, data)`. -/
structure HelpResponseData where
  content_id : Option String
  response_text : Option String

/-- `JSON.stringify` of the help-response payload. -/
def HelpResponseData.toJson (d : HelpResponseData) : Json :=
  Json.obj (optField "content_id" d.content_id
    ++ optField "response_text" d.response_text)

/-- Argument of `uploadContent(data)`. -/
structure UploadContentData where
  concept_id : String
  title : String
  content_url : Option String
  description : Option String
  content_type : Option String
  language : Option String
  help_request_id : Option String
  subject : Option String
  grade : Option String

/-- `JSON.stringify` of the upload-content payload. -/
def UploadContentData.toJson (d : UploadContentData) : Json :=
  Json.obj ([("concept_id", Json.str d.concept_id),
    ("title", Json.str d.title)]
    ++ optField "content_url" d.content_url
    ++ optField "description" d.description
    ++ optField "content_type" d.content_type
    ++ optField "language" d.language
    ++ optField "help_request_id" d.help_request_id
    ++ optField "subject" d.subject
    ++ optField "grade" d.grade)

/-- Argument of `addFeedback(contentId, data)`. -/
structure FeedbackData where
  worked : Bool
  rating : Int
  comment : Option String

/-- `JSON.stringify` of the feedback payload. -/
def FeedbackData.toJson (d : FeedbackData) : Json :=
  Json.obj ([("worked", Json.bool d.worked), ("rating", Json.num d.rating)]
    ++ optField "comment" d.comment)

/-- Body of `suggestTopic(title, description)`:
`{ title, description: description || '' }`. -/
def suggestTopicBody (title : String) (description : Option String) : Json :=
  Json.obj [("title", Json.str title),
    ("description", Json.str (description.getD ""))]

/-- Body of `createTopicWithTranslations`: the synonym arrays default to
`[]` when undefined, the optional names and subject/grade are omitted when
undefined. -/
def createTopicBody (topicId topicName : String)
    (topicNameHi topicNameKn : Option String)
    (synonymsEn synonymsHi synonymsKn : Option (List String))
    (subject grade : Option String) : Json :=
  Json.obj ([("topic_id", Json.str topicId),
    ("topic_name", Json.str topicName)]
    ++ optField "topic_name_hi" topicNameHi
    ++ optField "topic_name_kn" topicNameKn
    ++ [("synonyms_en", Json.arr ((synonymsEn.getD []).map Json.str)),
        ("synonyms_hi", Json.arr ((synonymsHi.getD []).map Json.str)),
        ("synonyms_kn", Json.arr ((synonymsKn.getD []).map Json.str))]
    ++ optField "subject" subject
    ++ optField "grade" grade)

/-! ## api.ts: the API operations, modelled as the request each issues -/

/-- `limit ? `?limit=${limit}` : ''` -/
def optLimitParams (limit : Option Nat) : String :=
  if jsTruthyN limit then "?limit=" ++ toString (limit.getD 0) else ""

def registerRequest (env token : Option String) (d : RegisterData) :
    HttpRequest :=
  apiFetchRequest env token "/auth/register" "POST" (ReqBody.json d.toJson)

def getCurrentUserRequest (env token : Option String) : HttpRequest :=
  apiFetchRequest env token "/auth/me" "GET" ReqBody.empty

def updateLanguagePreferenceRequest (env token : Option String)
    (language : String) : HttpRequest :=
  apiFetchRequest env token ("/auth/me/language?language=" ++ language)
    "PATCH" ReqBody.empty

def getConceptsRequest (env token : Option String)
    (language : Option String) : HttpRequest :=
  apiFetchRequest env token
    ("/concepts"
      ++ (if jsTruthyS language then "?language=" ++ language.getD "" else ""))
    "GET" ReqBody.empty

def getConceptRequest (env token : Option String) (conceptId : String) :
    HttpRequest :=
  apiFetchRequest env token ("/concepts/" ++ conceptId) "GET" ReqBody.empty

def createHelpRequestRequest (env token : Option String)
    (d : HelpRequestData) : HttpRequest :=
  apiFetchRequest env token "/help/request" "POST" (ReqBody.json d.toJson)

def getHelpRequestsRequest (env token : Option String) : HttpRequest :=
  apiFetchRequest env token "/help/recent" "GET" ReqBody.empty

def getHelpRequestByIdRequest (env token : Option String) (id : String) :
    HttpRequest :=
  apiFetchRequest env token ("/help/request/" ++ id) "GET" ReqBody.empty

def getHelpRequestRequest (env token : Option String) (id : String) :
    HttpRequest :=
  apiFetchRequest env token ("/help/request/" ++ id) "GET" ReqBody.empty

def addHelpResponseRequest (env token : Option String)
    (helpRequestId : String) (d : HelpResponseData) : HttpRequest :=
  apiFetchRequest env token ("/help/request/" ++ helpRequestId ++ "/respond")
    "POST" (ReqBody.json d.toJson)

def getSuggestionsRequest (env token : Option String) (conceptId : String) :
    HttpRequest :=
  apiFetchRequest env token ("/suggestions?concept_id=" ++ conceptId)
    "GET" ReqBody.empty

def uploadContentRequest (env token : Option String)
    (d : UploadContentData) : HttpRequest :=
  apiFetchRequest env token "/content/upload" "POST" (ReqBody.json d.toJson)

def getContentByIdRequest (env token : Option String) (contentId : String) :
    HttpRequest :=
  apiFetchRequest env token ("/content/" ++ contentId) "GET" ReqBody.empty

def addFeedbackRequest (env token : Option String) (contentId : String)
    (d : FeedbackData) : HttpRequest :=
  apiFetchRequest env token ("/content/" ++ contentId ++ "/feedback")
    "POST" (ReqBody.json d.toJson)

def checkCloudinaryStatusRequest (env token : Option String) : HttpRequest :=
  apiFetchRequest env token "/content/cloudinary-status" "GET" ReqBody.empty

def getMyPointsRequest (env token : Option String) : HttpRequest :=
  apiFetchRequest env token "/points" "GET" ReqBody.empty

def getPointsRequest (env token : Option String) : HttpRequest :=
  apiFetchRequest env token "/points" "GET" ReqBody.empty

def getLeaderboardRequest (env token : Option String) (limit : Option Nat) :
    HttpRequest :=
  apiFetchRequest env token ("/points/leaderboard" ++ optLimitParams limit)
    "GET" ReqBody.empty

def getNotificationsRequest (env token : Option String)
    (limit : Option Nat) : HttpRequest :=
  apiFetchRequest env token ("/notifications" ++ optLimitParams limit)
    "GET" ReqBody.empty

def getUnreadNotificationCountRequest (env token : Option String) :
    HttpRequest :=
  apiFetchRequest env token "/notifications" "GET" ReqBody.empty

def markNotificationReadRequest (env token : Option String)
    (notificationId : String) : HttpRequest :=
  apiFetchRequest env token ("/notifications/" ++ notificationId ++ "/read")
    "POST" ReqBody.empty

def markNotificationAsReadRequest (env token : Option String)
    (notificationId : String) : HttpRequest :=
  apiFetchRequest env token ("/notifications/" ++ notificationId ++ "/read")
    "POST" ReqBody.empty

def markAllNotificationsReadRequest (env token : Option String) :
    HttpRequest :=
  apiFetchRequest env token "/notifications/read-all" "POST" ReqBody.empty

def markAllNotificationsAsReadRequest (env token : Option String) :
    HttpRequest :=
  apiFetchRequest env token "/notifications/read-all" "POST" ReqBody.empty

def getAIStatusRequest (env token : Option String) : HttpRequest :=
  apiFetchRequest env token "/ai/status" "GET" ReqBody.empty

def suggestTopicRequest (env token : Option String) (title : String)
    (description : Option String) : HttpRequest :=
  apiFetchRequest env token "/ai/suggest-topic" "POST"
    (ReqBody.json (suggestTopicBody title description))

def createTopicWithTranslationsRequest (env token : Option String)
    (topicId topicName : String) (topicNameHi topicNameKn : Option String)
    (synonymsEn synonymsHi synonymsKn : Option (List String))
    (subject grade : Option String) : HttpRequest :=
  apiFetchRequest env token "/ai/create-topic" "POST"
    (ReqBody.json (createTopicBody topicId topicName topicNameHi topicNameKn
      synonymsEn synonymsHi synonymsKn subject grade))

def recordContentViewRequest (env token : Option String)
    (contentId : String) : HttpRequest :=
  apiFetchRequest env token ("/content/" ++ contentId ++ "/view")
    "POST" ReqBody.empty

def toggleContentLikeRequest (env token : Option String)
    (contentId : String) : HttpRequest :=
  apiFetchRequest env token ("/content/" ++ contentId ++ "/like")
    "POST" ReqBody.empty

/-- `URLSearchParams.toString()` on the appended pairs (all values used by
the app are URL-safe identifiers or numbers, so percent-encoding is the
identity on them). -/
def urlParamsToString : List (String × String) → String
  | [] => ""
  | [p] => p.1 ++ "=" ++ p.2
  | p :: rest => p.1 ++ "=" ++ p.2 ++ "&" ++ urlParamsToString rest

/-- Query pairs built by `getCommunityFeed`: `tab`, `limit`, `offset`,
each appended only when truthy. -/
def communityFeedParams (tab : Option String) (limit offset : Option Nat) :
    List (String × String) :=
  (if jsTruthyS tab then [("tab", tab.getD "")] else [])
  ++ (if jsTruthyN limit then [("limit", toString (limit.getD 0))] else [])
  ++ (if jsTruthyN offset then [("offset", toString (offset.getD 0))] else [])

def getCommunityFeedRequest (env token : Option String)
    (tab : Option String) (limit offset : Option Nat) : HttpRequest :=
  apiFetchRequest env token
    ("/community/feed"
      ++ (if urlParamsToString (communityFeedParams tab limit offset) = ""
          then ""
          else "?" ++ urlParamsToString (communityFeedParams tab limit offset)))
    "GET" ReqBody.empty

def getRecentHelpRequestsRequest (env token : Option String)
    (limit : Option Nat) : HttpRequest :=
  apiFetchRequest env token ("/help/recent" ++ optLimitParams limit)
    "GET" ReqBody.empty

/-! ## api.ts: the auth-token store

```
let authToken: string | null = null;
export function setAuthToken(token) { authToken = token;
  if (isBrowser) { if (token) localStorage.setItem('auth_token', token);
                   else localStorage.removeItem('auth_token'); } }
export function getAuthToken() {
  if (isBrowser && !authToken) authToken = localStorage.getItem('auth_token');
  return authToken; }
```
-/

/-- Module state of the token store: the in-memory `authToken` variable and
the `'auth_token'` entry of `localStorage`. -/
structure TokenStore where
  authToken : Option String
  storage : Option String

/-- `setAuthToken(token)`. Note the JS truthiness test: an empty-string
token is assigned in memory but removed from storage. -/
def setAuthToken (isBrowser : Bool) (token : Option String)
    (st : TokenStore) : TokenStore :=
  let st1 : TokenStore := { st with authToken := token }
  if isBrowser then
    if jsTruthyS token then { st1 with storage := token }
    else { st1 with storage := none }
  else st1

/-- `getAuthToken()`: returns the updated store and the returned value.
In a browser a falsy in-memory token is refreshed from storage first. -/
def getAuthTokenRun (isBrowser : Bool) (st : TokenStore) :
    TokenStore × Option String :=
  let st1 :=
    if isBrowser && !jsTruthyS st.authToken then
      { st with authToken := st.storage }
    else st
  (st1, st1.authToken)

/-! ## help/page.tsx: the help-request form

State: `selectedProblem` (category id or `''`), `customProblem` (textarea
text), `audioBase64` from the voice recorder (`null` until a recording
finishes).
-/

/-- The component state of the help form that `handleSubmit` reads. -/
structure HelpFormState where
  selectedProblem : String
  customProblem : String
  audioBase64 : Option String

/-- The validation guard plus the request-mode selection of
`handleSubmit`: `none` when the guard rejects (no request is sent),
otherwise the `createHelpRequest` payload.

```
const queryText = selectedProblem || customProblem;
if (!queryText.trim() && !audioBase64) { ...error...; return; }
if (audioBase64) { audio_base64, request_type: 'voice',
                   category: selectedProblem || undefined }
else if (selectedProblem && customProblem) { query_text: customProblem,
                   request_type: 'text', category: selectedProblem }
else if (selectedProblem) { query_text: selectedProblem,
                   request_type: 'predefined', category: selectedProblem }
else { query_text: customProblem, request_type: 'text' }
```
-/
def buildRequestData (s : HelpFormState) : Option HelpRequestData :=
  if jsTrim (jsOrStr s.selectedProblem s.customProblem) = ""
      ∧ jsTruthyS s.audioBase64 = false then none
  else if jsTruthyS s.audioBase64 = true then
    some { query_text := none, audio_base64 := s.audioBase64,
           request_type := some "voice",
           category := if s.selectedProblem = "" then none
                       else some s.selectedProblem,
           subject := none, grade := none }
  else if s.selectedProblem ≠ "" ∧ s.customProblem ≠ "" then
    some { query_text := some s.customProblem, audio_base64 := none,
           request_type := some "text", category := some s.selectedProblem,
           subject := none, grade := none }
  else if s.selectedProblem ≠ "" then
    some { query_text := some s.selectedProblem, audio_base64 := none,
           request_type := some "predefined",
           category := some s.selectedProblem,
           subject := none, grade := none }
  else
    some { query_text := some s.customProblem, audio_base64 := none,
           request_type := some "text", category := none,
           subject := none, grade := none }

/-- Hexadecimal digit (upper case) of a value below 16. -/
def hexDigitChar (n : Nat) : Char :=
  Char.ofNat (if n < 10 then 48 + n else 55 + n)

/-- UTF-8 bytes of a character (standard encoding). -/
def utf8BytesOf (c : Char) : List Nat :=
  let n := c.toNat
  if n < 128 then [n]
  else if n < 2048 then [192 + n / 64, 128 + n % 64]
  else if n < 65536 then
    [224 + n / 4096, 128 + (n / 64) % 64, 128 + n % 64]
  else
    [240 + n / 262144, 128 + (n / 4096) % 64, 128 + (n / 64) % 64,
     128 + n % 64]

/-- `%XX` percent-escape of one byte (37 is the percent sign). -/
def percentByte (b : Nat) : List Char :=
  [Char.ofNat 37, hexDigitChar (b / 16), hexDigitChar (b % 16)]

/-- Characters `encodeURIComponent` leaves unescaped: ASCII alphanumerics
and `- _ . ! ~ * ' ( )` (code points 45 95 46 33 126 42 39 40 41). -/
def isUnreservedURI (c : Char) : Bool :=
  c.isAlphanum || (c.toNat ∈ [45, 95, 46, 33, 126, 42, 39, 40, 41])

/-- JS `encodeURIComponent`. -/
def encodeURIComponent (s : String) : String :=
  String.mk (s.data.map (fun c =>
    if isUnreservedURI c then [c]
    else (utf8BytesOf c).map percentByte |>.flatten)
    |>.flatten)

/-- The URL pushed on success:
``/suggestions?concept_id=${id}&summary=${encodeURIComponent(...)}${langParam}``
where `langParam` is ``&lang=${detected_language}`` when that field is
truthy. -/
def suggestionsUrl (conceptId summary : String)
    (detectedLanguage : Option String) : String :=
  "/suggestions?concept_id=" ++ conceptId
    ++ "&summary=" ++ encodeURIComponent summary
    ++ (if jsTruthyS detectedLanguage then
          "&lang=" ++ detectedLanguage.getD ""
        else "")

/-- The fields of the `createHelpRequest` response that `handleSubmit`
reads. -/
structure HelpRespModel where
  concept_id : Option String
  detected_language : Option String

/-- Observable outcome of one `handleSubmit` invocation. -/
structure SubmitRun where
  requests : List HelpRequestData
  error : String
  nav : Option String
  loading : Bool

/-- `handleSubmit`, given the form state, the `t` function currently in
scope, and the outcome of the one awaited `createHelpRequest` call
(`Except.error` models the call throwing).  `requests` lists the payloads
actually sent, `error` is the final error message (`''` when none was set),
`nav` the `router.push` target, and `loading` the final loading flag
(always reset by `finally`). -/
def handleSubmitRun (tf : String → String) (s : HelpFormState)
    (resp : Except String HelpRespModel) : SubmitRun :=
  match buildRequestData s with
  | none =>
    { requests := [],
      error := jsOrStr (tf "help.selectProblemError")
        "Please select a problem or describe your issue",
      nav := none, loading := false }
  | some d =>
    match resp with
    | Except.error m =>
      { requests := [d], error := m, nav := none, loading := false }
    | Except.ok r =>
      if jsTruthyS r.concept_id then
        { requests := [d], error := "",
          nav := some (suggestionsUrl (r.concept_id.getD "")
            (jsOrStr s.customProblem s.selectedProblem)
            r.detected_language),
          loading := false }
      else
        { requests := [d],
          error := jsOrStr (tf "help.submitError")
            "Could not understand your question. Please try again.",
          nav := none, loading := false }

/-- The submit button's `disabled` attribute:
`loading || (!selectedProblem && !customProblem.trim() && !audioBase64)`. -/
def submitDisabled (loading : Bool) (s : HelpFormState) : Bool :=
  loading ||
    (s.selectedProblem == "" && jsTrim s.customProblem == ""
      && !jsTruthyS s.audioBase64)

/-! ## suggestions/page.tsx: page-load effect -/

/-- What the suggestions page does on load. -/
inductive SuggestionsPageEffect where
  | redirect (path : String)
  | fetchPair (suggestionsReq conceptReq : HttpRequest)

/-- The load effect of the suggestions page given the `concept_id` query
parameter (`searchParams.get('concept_id')`, `none` when absent):
`if (!conceptId) router.push('/help')`, otherwise
`Promise.all([getSuggestions(conceptId), getConcept(conceptId)])`. -/
def suggestionsPageLoad (env token : Option String)
    (conceptIdParam : Option String) : SuggestionsPageEffect :=
  if jsTruthyS conceptIdParam then
    SuggestionsPageEffect.fetchPair
      (getSuggestionsRequest env token (conceptIdParam.getD ""))
      (getConceptRequest env token (conceptIdParam.getD ""))
  else
    SuggestionsPageEffect.redirect "/help"

/-! ## community/page.tsx: feed fetch and rendering -/

/-- The fields of a feed item that the community page reads. -/
structure FeedItem where
  id : String
  concept_id : String
  source_type : String
  title : String
  created_at : String

/-- What one rendered `FeedCard` shows: keyed by the item's id, with the
`onHelpOut` navigation target computed from the item. -/
structure FeedCardModel where
  id : String
  helpOutTarget : String

/-- Construction of one `FeedCard` from a feed item. -/
def mkFeedCard (item : FeedItem) : FeedCardModel :=
  { id := item.id,
    helpOutTarget :=
      if item.source_type = "help_request" then
        "/help-request/" ++ item.id
      else
        "/suggestions?concept_id=" ++ item.concept_id }

/-- The community page renders `feed.map(item => <FeedCard .../>)`:
one card per item, in the list's own order, no sorting. -/
def communityDisplay (feed : List FeedItem) : List FeedCardModel :=
  feed.map mkFeedCard

/-- The request issued by `fetchFeed` for the active tab:
`getCommunityFeed(activeTab, 20)`. -/
def communityFetchFeedRequest (env token : Option String) (tab : String) :
    HttpRequest :=
  getCommunityFeedRequest env token (some tab) (some 20) none

/-! ## useVoiceRecorder: recorder state machine

`startRecording` clears the chunk buffer and starts a fresh stream;
`ondataavailable` buffers non-empty chunks; `onstop` builds a single
`audio/webm` blob from the buffered chunks, reads it as a data URL, stores
the part after the comma as `audioBase64`, and stops every stream track.
-/

/-- The base64 alphabet used by data URLs. -/
def base64Alphabet : List Char :=
  "ABCDEFGHIJKLMNOPQRSTUVWXYZabcdefghijklmnopqrstuvwxyz0123456789+/".data

/-- Character of one 6-bit group. -/
def sixBitChar (n : Nat) : Char :=
  base64Alphabet.getD (n % 64) (Char.ofNat 65)

/-- Standard base64 of a byte list (the payload `FileReader.readAsDataURL`
places after the comma). -/
def b64chars : List Nat → List Char
  | [] => []
  | [a] =>
    [sixBitChar (a / 4), sixBitChar (a % 4 * 16), Char.ofNat 61,
     Char.ofNat 61]
  | [a, b] =>
    [sixBitChar (a / 4), sixBitChar (a % 4 * 16 + b / 16),
     sixBitChar (b % 16 * 4), Char.ofNat 61]
  | a :: b :: c :: rest =>
    sixBitChar (a / 4) :: sixBitChar (a % 4 * 16 + b / 16)
      :: sixBitChar (b % 16 * 4 + c / 64) :: sixBitChar (c % 64)
      :: b64chars rest

/-- A blob: its bytes and MIME type. -/
structure BlobModel where
  bytes : List Nat
  type : String

/-- `FileReader.readAsDataURL(blob).result` as a character list:
`"data:<type>;base64," ++ base64(bytes)`. -/
def dataUrlChars (b : BlobModel) : List Char :=
  ("data:" ++ b.type ++ ";base64,").data ++ b64chars b.bytes

/-- `String.prototype.split(',')` as a list-of-chars operation. -/
def splitOnCommaList : List Char → List (List Char)
  | [] => [[]]
  | c :: rest =>
    if c = ',' then [] :: splitOnCommaList rest
    else
      match splitOnCommaList rest with
      | [] => [[c]]
      | h :: t => (c :: h) :: t

/-- State of the voice-recorder hook plus the current stream's tracks
(`true` = stopped). -/
structure RecorderState where
  isRecording : Bool
  audioBlob : Option BlobModel
  audioBase64 : Option (List Char)
  chunks : List (List Nat)
  tracks : List Bool
  error : Option String

/-- `startRecording` (successful `getUserMedia` with `n` live tracks):
clears the error and the chunk buffer, then starts recording. -/
def recStartRecording (s : RecorderState) (n : Nat) : RecorderState :=
  { s with error := none, chunks := [], tracks := List.replicate n false,
           isRecording := true }

/-- The `ondataavailable` handler: buffers the chunk when
`event.data.size > 0`. -/
def recOnDataAvailable (s : RecorderState) (d : List Nat) : RecorderState :=
  if 0 < d.length then { s with chunks := s.chunks ++ [d] } else s

/-- The `onstop` handler: single `audio/webm` blob from all buffered
chunks, base64 payload of its data URL (`split(',')[1]`), stop all
tracks. -/
def recOnStop (s : RecorderState) : RecorderState :=
  let blob : BlobModel := { bytes := s.chunks.flatten, type := "audio/webm" }
  { s with audioBlob := some blob,
           audioBase64 := (splitOnCommaList (dataUrlChars blob))[1]?,
           tracks := s.tracks.map (fun _ => true) }

/-- `stopRecording`: when recording, fire the recorder's stop (and thus
`onstop`) and clear the recording flag. -/
def recStopRecording (s : RecorderState) : RecorderState :=
  if s.isRecording then { recOnStop s with isRecording := false } else s

/-! ## LanguageContext.tsx: the translation function `t` -/

/-- A loaded translations value: a string leaf or a nested object. -/
inductive TransValue where
  | str (s : String)
  | obj (fields : List (String × TransValue))

/-- Property read `value[k]` on an object's fields. -/
def lookupTransField : List (String × TransValue) → String → Option TransValue
  | [], _ => none
  | p :: rest, key => if p.1 = key then some p.2 else lookupTransField rest key

/-- The key-navigation loop of `t`: descends through objects; a missing
property, a leaf met too early, or an already-undefined value all yield
`undefined`. -/
def navigateKeys : Option TransValue → List String → Option TransValue
  | v, [] => v
  | some (TransValue.obj fields), k :: rest =>
    navigateKeys (lookupTransField fields k) rest
  | _, _ :: _ => none

/-- `\w` of the placeholder regex: ASCII letters, digits, underscore. -/
def isWordChar (c : Char) : Bool :=
  c.isAlphanum || c = Char.ofNat 95

/-- Params are modelled by their `toString()`ed values. -/
def lookupParam : List (String × String) → String → Option String
  | [], _ => none
  | p :: rest, key => if p.1 = key then some p.2 else lookupParam rest key

/-- The literal text of a `\x7b\x7bname\x7d\x7d` placeholder. -/
def placeholderOf (name : List Char) : List Char :=
  Char.ofNat 123 :: Char.ofNat 123 :: (name ++ [Char.ofNat 125, Char.ofNat 125])

/-- Replacement of one matched placeholder:
`params[paramKey]?.toString() || match` — an absent parameter or one whose
string value is falsy (empty) leaves the match verbatim. -/
def replacePlaceholder (params : List (String × String)) (name : List Char) :
    List Char :=
  match lookupParam params (String.mk name) with
  | some v => if v = "" then placeholderOf name else v.data
  | none => placeholderOf name

/-- Attempt to match the regex `\x7b\x7b(\w+)\x7d\x7d` at the head of the
input; on success return the captured name and the input after the
match. -/
def matchPlaceholder (l : List Char) : Option (List Char × List Char) :=
  match l with
  | c1 :: c2 :: rest =>
    if c1 = Char.ofNat 123 ∧ c2 = Char.ofNat 123 then
      match rest.dropWhile isWordChar with
      | d1 :: d2 :: rest2 =>
        if d1 = Char.ofNat 125 ∧ d2 = Char.ofNat 125
            ∧ rest.takeWhile isWordChar ≠ [] then
          some (rest.takeWhile isWordChar, rest2)
        else none
      | _ => none
    else none
  | _ => none

/-- The global-flag regex replacement
`value.replace(/\x7b\x7b(\w+)\x7d\x7d/g, (match, paramKey) => ...)`:
scan left to right, replacing each match and continuing after it. -/
def substParams (params : List (String × String)) : List Char → List Char
  | [] => []
  | c :: rest =>
    match hm : matchPlaceholder (c :: rest) with
    | some p => replacePlaceholder params p.1 ++ substParams params p.2
    | none => c :: substParams params rest
termination_by l => l.length
decreasing_by
  · have hdw : ∀ l : List Char, (l.dropWhile isWordChar).length ≤ l.length := by
      intro l
      induction l with
      | nil => simp [List.dropWhile]
      | cons a t ih =>
        rw [List.dropWhile]
        cases isWordChar a <;> simp <;> omega
    have key : ∀ l n r : List Char, matchPlaceholder l = some (n, r) →
        r.length < l.length := by
      intro l n r h
      unfold matchPlaceholder at h
      split at h
      case h_2 => exact absurd h (by simp)
      case h_1 c1 c2 rest2 =>
        split at h
        case isFalse => exact absurd h (by simp)
        case isTrue =>
          split at h
          case h_2 => exact absurd h (by simp)
          case h_1 d1 d2 rest3 heq =>
            split at h
            case isFalse => exact absurd h (by simp)
            case isTrue =>
              obtain ⟨-, rfl⟩ : n = rest2.takeWhile isWordChar ∧ r = rest3 := by
                simpa [eq_comm] using h
              have hlen := hdw rest2
              rw [heq] at hlen
              simp only [List.length_cons] at hlen ⊢
              omega
    exact key _ p.1 p.2 hm
  · simp

/-- `key.split('.')` as a list-of-chars operation. -/
def splitOnDotList : List Char → List (List Char)
  | [] => [[]]
  | c :: rest =>
    if c = '.' then [] :: splitOnDotList rest
    else
      match splitOnDotList rest with
      | [] => [[c]]
      | h :: t => (c :: h) :: t

/-- `key.split('.')`. -/
def jsSplitDots (s : String) : List String :=
  (splitOnDotList s.data).map String.mk

/-- `t(key, params)` over loaded translations: split the key on dots,
navigate, return the key itself unless a string is reached, then perform
parameter substitution when params are given. -/
def tFun (translations : List (String × TransValue)) (key : String)
    (params : Option (List (String × String))) : String :=
  match navigateKeys (some (TransValue.obj translations)) (jsSplitDots key) with
  | some (TransValue.str s) =>
    match params with
    | some ps => String.mk (substParams ps s.data)
    | none => s
  | _ => key

/-! ## Placeholder templates

To state "each placeholder is replaced / left verbatim" we describe a
translation string as a sequence of brace-free literal pieces and
`\x7b\x7bname\x7d\x7d` placeholders and characterize `substParams` on every
such string.
-/

/-- One piece of a translation string: literal text or a placeholder. -/
inductive TplPiece where
  | lit (s : String)
  | hole (n : String)

/-- The translation string denoted by a sequence of pieces. -/
def renderTpl : List TplPiece → List Char
  | [] => []
  | TplPiece.lit s :: t => s.data ++ renderTpl t
  | TplPiece.hole n :: t => placeholderOf n.data ++ renderTpl t

/-- The string the code's regex replacement produces from the same
sequence: literals kept, every placeholder replaced per
`replacePlaceholder`. -/
def renderTplSubst (params : List (String × String)) : List TplPiece → List Char
  | [] => []
  | TplPiece.lit s :: t => s.data ++ renderTplSubst params t
  | TplPiece.hole n :: t =>
    replacePlaceholder params n.data ++ renderTplSubst params t

/-- Well-formedness of a piece: literals contain no opening brace, hole
names are non-empty and made of word characters. -/
def wfTplPiece : TplPiece → Bool
  | TplPiece.lit s => s.data.all (fun c => c != Char.ofNat 123)
  | TplPiece.hole n => !n.data.isEmpty && n.data.all isWordChar

/-- Well-formedness of a template. -/
def wfTpl (l : List TplPiece) : Bool :=
  l.all wfTplPiece

/-- Field read on a JSON object. -/
def jsonObjField (j : Json) (k : String) : Option Json :=
  match j with
  | Json.obj fields => lookupJsonField fields k
  | _ => none

/-! ## Help-form payloads (the three object literals of `handleSubmit`) -/

/-- The voice-mode payload literal. -/
def helpVoicePayload (s : HelpFormState) : HelpRequestData :=
  { query_text := none, audio_base64 := s.audioBase64,
    request_type := some "voice",
    category := if s.selectedProblem = "" then none
                else some s.selectedProblem,
    subject := none, grade := none }

/-- The text-mode payload: typed text as `query_text`, category attached
exactly when one is selected (covers both text-mode literals). -/
def helpTextPayload (s : HelpFormState) : HelpRequestData :=
  { query_text := some s.customProblem, audio_base64 := none,
    request_type := some "text",
    category := if s.selectedProblem = "" then none
                else some s.selectedProblem,
    subject := none, grade := none }

/-- The predefined-mode payload: the category id itself as `query_text`. -/
def helpPredefinedPayload (s : HelpFormState) : HelpRequestData :=
  { query_text := some s.selectedProblem, audio_base64 := none,
    request_type := some "predefined", category := some s.selectedProblem,
    subject := none, grade := none }

/-- Whether a request carries an `Authorization` header. -/
def hasAuthHeader (r : HttpRequest) : Bool :=
  r.headers.any (fun p => p.1 == "Authorization")

theorem matchPlaceholder_none_of_head {c : Char} {rest : List Char}
    (h : c ≠ Char.ofNat 123) : matchPlaceholder (c :: rest) = none := by
  unfold matchPlaceholder
  match rest with
  | [] => rfl
  | c2 :: rest2 =>
    simp only []
    rw [if_neg]
    exact fun hc => h hc.1

theorem substParams_cons_none {params : List (String × String)} {c : Char}
    {rest : List Char} (h : matchPlaceholder (c :: rest) = none) :
    substParams params (c :: rest) = c :: substParams params rest := by
  rw [substParams]
  split
  · rename_i p heq
    rw [h] at heq
    exact absurd heq (by simp)
  · rfl

theorem substParams_cons_some {params : List (String × String)} {c : Char}
    {rest nm r : List Char}
    (h : matchPlaceholder (c :: rest) = some (nm, r)) :
    substParams params (c :: rest)
      = replacePlaceholder params nm ++ substParams params r := by
  rw [substParams]
  split
  · rename_i p heq
    rw [h] at heq
    obtain ⟨rfl, rfl⟩ : nm = p.1 ∧ r = p.2 := by
      cases p
      simpa [eq_comm] using heq
    rfl
  · rename_i heq
    rw [h] at heq
    exact absurd heq (by simp)


theorem isWordChar_closeBrace : isWordChar (Char.ofNat 125) = false := by
  decide

theorem takeWhile_word_append {name : List Char}
    (hall : ∀ c ∈ name, isWordChar c = true) (rest : List Char) :
    (name ++ Char.ofNat 125 :: rest).takeWhile isWordChar = name := by
  induction name with
  | nil =>
    rw [List.nil_append, List.takeWhile_cons, isWordChar_closeBrace]
    simp
  | cons c t ih =>
    rw [List.cons_append, List.takeWhile_cons,
      hall c (List.mem_cons_self c t)]
    simp only [if_true]
    rw [ih (fun d hd => hall d (List.mem_cons_of_mem c hd))]

theorem dropWhile_word_append {name : List Char}
    (hall : ∀ c ∈ name, isWordChar c = true) (rest : List Char) :
    (name ++ Char.ofNat 125 :: rest).dropWhile isWordChar
      = Char.ofNat 125 :: rest := by
  induction name with
  | nil =>
    rw [List.nil_append, List.dropWhile_cons, isWordChar_closeBrace]
    simp
  | cons c t ih =>
    rw [List.cons_append, List.dropWhile_cons,
      hall c (List.mem_cons_self c t)]
    simp only [if_true]
    exact ih (fun d hd => hall d (List.mem_cons_of_mem c hd))

theorem matchPlaceholder_placeholder {name : List Char} (hne : name ≠ [])
    (hall : ∀ c ∈ name, isWordChar c = true) (rest : List Char) :
    matchPlaceholder (placeholderOf name ++ rest) = some (name, rest) := by
  have hshape : placeholderOf name ++ rest
      = Char.ofNat 123 :: Char.ofNat 123
        :: (name ++ Char.ofNat 125 :: Char.ofNat 125 :: rest) := by
    simp [placeholderOf]
  rw [hshape]
  simp [matchPlaceholder, dropWhile_word_append hall,
    takeWhile_word_append hall, hne]

theorem substParams_lit_part {params : List (String × String)}
    {l : List Char} (hl : ∀ c ∈ l, c ≠ Char.ofNat 123) (rest : List Char) :
    substParams params (l ++ rest) = l ++ substParams params rest := by
  induction l with
  | nil => simp
  | cons c t ih =>
    rw [List.cons_append,
      substParams_cons_none
        (matchPlaceholder_none_of_head (hl c (List.mem_cons_self c t)))]
    rw [ih (fun d hd => hl d (List.mem_cons_of_mem c hd))]
    rfl

/-- `substParams` on any well-formed template: literals verbatim, each
placeholder replaced (or kept) according to the params. -/
theorem substParams_render (params : List (String × String))
    (tpl : List TplPiece) (hwf : wfTpl tpl = true) :
    substParams params (renderTpl tpl) = renderTplSubst params tpl := by
  induction tpl with
  | nil => simp [renderTpl, renderTplSubst, substParams]
  | cons piece t ih =>
    have hpiece : wfTplPiece piece = true := by
      simp only [wfTpl, List.all_cons, Bool.and_eq_true] at hwf
      exact hwf.1
    have ht : wfTpl t = true := by
      simp only [wfTpl, List.all_cons, Bool.and_eq_true] at hwf
      exact hwf.2
    cases piece with
    | lit s =>
      simp only [renderTpl, renderTplSubst]
      have hl : ∀ c ∈ s.data, c ≠ Char.ofNat 123 := by
        intro c hc
        simp only [wfTplPiece, List.all_eq_true] at hpiece
        simpa using hpiece c hc
      rw [substParams_lit_part hl, ih ht]
    | hole n =>
      simp only [renderTpl, renderTplSubst]
      have hne : n.data ≠ [] := by
        intro hnil
        simp [wfTplPiece, hnil] at hpiece
      have hall : ∀ c ∈ n.data, isWordChar c = true := by
        simp only [wfTplPiece, Bool.and_eq_true, List.all_eq_true] at hpiece
        exact hpiece.2
      have hm : matchPlaceholder (placeholderOf n.data ++ renderTpl t)
          = some (n.data, renderTpl t) :=
        matchPlaceholder_placeholder hne hall _
      have hshape : placeholderOf n.data ++ renderTpl t
          = Char.ofNat 123 :: (Char.ofNat 123
              :: (n.data ++ [Char.ofNat 125, Char.ofNat 125])
              ++ renderTpl t) := by
        simp [placeholderOf]
      rw [hshape] at hm
      rw [hshape, substParams_cons_some hm, ih ht]

/-! ## Voice recorder: supporting lemmas -/

theorem sixBitChar_ne_comma (n : Nat) : sixBitChar n ≠ Char.ofNat 44 := by
  have h : ∀ i, i < 64 → base64Alphabet.getD i (Char.ofNat 65) ≠ Char.ofNat 44 := by
    decide
  exact h (n % 64) (Nat.mod_lt _ (by norm_num))

theorem b64chars_no_comma (bs : List Nat) : Char.ofNat 44 ∉ b64chars bs := by
  induction bs using b64chars.induct with
  | case1 => simp [b64chars]
  | case2 a =>
    intro h
    simp only [b64chars, List.mem_cons, List.not_mem_nil, or_false] at h
    rcases h with h | h | h | h
    · exact sixBitChar_ne_comma _ h.symm
    · exact sixBitChar_ne_comma _ h.symm
    · exact absurd h (by decide)
    · exact absurd h (by decide)
  | case3 a b =>
    intro h
    simp only [b64chars, List.mem_cons, List.not_mem_nil, or_false] at h
    rcases h with h | h | h | h
    · exact sixBitChar_ne_comma _ h.symm
    · exact sixBitChar_ne_comma _ h.symm
    · exact sixBitChar_ne_comma _ h.symm
    · exact absurd h (by decide)
  | case4 a b c rest ih =>
    intro h
    simp only [b64chars, List.mem_cons] at h
    rcases h with h | h | h | h | h
    · exact sixBitChar_ne_comma _ h.symm
    · exact sixBitChar_ne_comma _ h.symm
    · exact sixBitChar_ne_comma _ h.symm
    · exact sixBitChar_ne_comma _ h.symm
    · exact ih h

theorem splitOnCommaList_no_comma {l : List Char} (h : Char.ofNat 44 ∉ l) :
    splitOnCommaList l = [l] := by
  induction l with
  | nil => rfl
  | cons c rest ih =>
    have hc : c ≠ Char.ofNat 44 := fun e => h (by simp [e])
    have hr : Char.ofNat 44 ∉ rest := fun e => h (List.mem_cons_of_mem c e)
    have hc2 : ¬ c = ',' := by
      intro e
      exact hc (by rw [e])
    rw [splitOnCommaList, if_neg hc2, ih hr]

theorem splitOnCommaList_append {l1 l2 : List Char}
    (h : Char.ofNat 44 ∉ l1) :
    splitOnCommaList (l1 ++ Char.ofNat 44 :: l2)
      = l1 :: splitOnCommaList l2 := by
  induction l1 with
  | nil =>
    rw [List.nil_append]
    simp [splitOnCommaList]
  | cons c t ih =>
    have hc : ¬ c = ',' := by
      intro e
      exact h (by rw [e]; exact List.mem_cons_self _ _)
    have ht : Char.ofNat 44 ∉ t := fun e => h (List.mem_cons_of_mem c e)
    rw [List.cons_append, splitOnCommaList, if_neg hc, ih ht]

/-- The payload extracted by `split(',')[1]` from the data URL of an
`audio/webm` blob is exactly the blob's base64 encoding. -/
theorem dataUrl_split_payload (bytes : List Nat) :
    (splitOnCommaList
        (dataUrlChars { bytes := bytes, type := "audio/webm" }))[1]?
      = some (b64chars bytes) := by
  have hdata : ("data:" ++ "audio/webm" ++ ";base64,").data
      = "data:audio/webm;base64".data ++ [Char.ofNat 44] := by decide
  have hshape : dataUrlChars { bytes := bytes, type := "audio/webm" }
      = "data:audio/webm;base64".data ++ Char.ofNat 44 :: b64chars bytes := by
    rw [dataUrlChars]
    rw [hdata, List.append_assoc]
    rfl
  rw [hshape,
    splitOnCommaList_append (by decide),
    splitOnCommaList_no_comma (b64chars_no_comma bytes)]
  rfl

theorem recOnDataAvailable_fields (s : RecorderState) (d : List Nat) :
    (recOnDataAvailable s d).chunks
        = s.chunks ++ (if 0 < d.length then [d] else [])
      ∧ (recOnDataAvailable s d).isRecording = s.isRecording
      ∧ (recOnDataAvailable s d).tracks = s.tracks
      ∧ (recOnDataAvailable s d).audioBlob = s.audioBlob
      ∧ (recOnDataAvailable s d).audioBase64 = s.audioBase64
      ∧ (recOnDataAvailable s d).error = s.error := by
  unfold recOnDataAvailable
  by_cases hd : 0 < d.length
  · rw [if_pos hd, if_pos hd]
    simp
  · rw [if_neg hd, if_neg hd]
    simp

theorem recorder_fold_fields (ds : List (List Nat)) :
    ∀ s : RecorderState,
    (ds.foldl recOnDataAvailable s).chunks
        = s.chunks ++ ds.filter (fun d => decide (0 < d.length))
      ∧ (ds.foldl recOnDataAvailable s).isRecording = s.isRecording
      ∧ (ds.foldl recOnDataAvailable s).tracks = s.tracks
      ∧ (ds.foldl recOnDataAvailable s).audioBlob = s.audioBlob
      ∧ (ds.foldl recOnDataAvailable s).audioBase64 = s.audioBase64
      ∧ (ds.foldl recOnDataAvailable s).error = s.error := by
  induction ds with
  | nil => intro s; simp
  | cons d rest ih =>
    intro s
    rw [List.foldl_cons]
    obtain ⟨g1, g2, g3, g4, g5, g6⟩ := recOnDataAvailable_fields s d
    obtain ⟨h1, h2, h3, h4, h5, h6⟩ := ih (recOnDataAvailable s d)
    refine ⟨?_, by rw [h2, g2], by rw [h3, g3], by rw [h4, g4],
      by rw [h5, g5], by rw [h6, g6]⟩
    rw [h1, g1]
    by_cases hd : 0 < d.length
    · rw [if_pos hd, List.filter_cons_of_pos (by simpa using hd)]
      simp
    · rw [if_neg hd, List.filter_cons_of_neg (by simpa using hd)]
      simp

/-! ## JSON body field lookups (help requests) -/

theorem jsonObjField_obj (fs : List (String × Json)) (k : String) :
    jsonObjField (Json.obj fs) k = lookupJsonField fs k := rfl

theorem lookupJsonField_optField_ne {k key : String} (h : ¬ k = key)
    (v : Option String) (rest : List (String × Json)) :
    lookupJsonField (optField k v ++ rest) key = lookupJsonField rest key := by
  cases v
  · simp [optField]
  · simp [optField, lookupJsonField, h]

theorem lookupJsonField_optField_ne_nil {k key : String} (h : ¬ k = key)
    (v : Option String) :
    lookupJsonField (optField k v) key = none := by
  cases v
  · rfl
  · simp [optField, lookupJsonField, h]

theorem lookupJsonField_optField_head (k : String) (s : String)
    (rest : List (String × Json)) :
    lookupJsonField (optField k (some s) ++ rest) k = some (Json.str s) := by
  simp [optField, lookupJsonField]

/-- The `query_text` field of the serialized help-request payload is the
payload's `query_text` value, unmodified. -/
theorem helpRequest_toJson_query_text (d : HelpRequestData) :
    jsonObjField d.toJson "query_text" = d.query_text.map Json.str := by
  rw [HelpRequestData.toJson, jsonObjField_obj]
  cases d.query_text with
  | some s => exact lookupJsonField_optField_head _ _ _
  | none =>
    rw [show optField "query_text" (none : Option String) = [] from rfl,
      List.nil_append,
      lookupJsonField_optField_ne (by decide),
      lookupJsonField_optField_ne (by decide),
      lookupJsonField_optField_ne (by decide),
      lookupJsonField_optField_ne (by decide),
      lookupJsonField_optField_ne_nil (by decide)]
    rfl

/-- The `audio_base64` field of the serialized help-request payload is the
payload's `audio_base64` value, unmodified. -/
theorem helpRequest_toJson_audio_base64 (d : HelpRequestData) :
    jsonObjField d.toJson "audio_base64" = d.audio_base64.map Json.str := by
  rw [HelpRequestData.toJson, jsonObjField_obj,
    lookupJsonField_optField_ne (by decide)]
  cases d.audio_base64 with
  | some s => exact lookupJsonField_optField_head _ _ _
  | none =>
    rw [show optField "audio_base64" (none : Option String) = [] from rfl,
      List.nil_append,
      lookupJsonField_optField_ne (by decide),
      lookupJsonField_optField_ne (by decide),
      lookupJsonField_optField_ne (by decide),
      lookupJsonField_optField_ne_nil (by decide)]
    rfl

theorem jsOrStr_ne_empty {a b : String} (hb : b ≠ "") : jsOrStr a b ≠ "" := by
  unfold jsOrStr
  split
  · exact hb
  · assumption

/-- Case analysis of the request-mode selection: any payload actually sent
is the voice payload when audio is truthy, the text payload when audio is
falsy and custom text is entered, and the predefined payload otherwise. -/
theorem buildRequestData_spec {s : HelpFormState} {d : HelpRequestData}
    (h : buildRequestData s = some d) :
    (jsTruthyS s.audioBase64 = true → d = helpVoicePayload s)
    ∧ (jsTruthyS s.audioBase64 = false → s.customProblem ≠ "" →
        d = helpTextPayload s)
    ∧ (jsTruthyS s.audioBase64 = false → s.customProblem = "" →
        d = helpPredefinedPayload s) := by
  unfold buildRequestData at h
  split at h
  · exact absurd h (by simp)
  · rename_i hguard
    split at h
    · rename_i haud
      have hd : d = helpVoicePayload s := by
        unfold helpVoicePayload
        exact (Option.some.inj h).symm
      exact ⟨fun _ => hd, fun hf _ => absurd haud (by simp [hf]),
        fun hf _ => absurd haud (by simp [hf])⟩
    · rename_i haudneg
      have hb : jsTruthyS s.audioBase64 = false := by
        revert haudneg
        cases jsTruthyS s.audioBase64 <;> simp
      split at h
      · rename_i hboth
        have hd : d = helpTextPayload s := by
          unfold helpTextPayload
          rw [if_neg hboth.1]
          exact (Option.some.inj h).symm
        exact ⟨fun ht => absurd ht (by simp [hb]), fun _ _ => hd,
          fun _ hc => absurd hc hboth.2⟩
      · rename_i hnboth
        split at h
        · rename_i hsel
          have hcust : s.customProblem = "" := by
            by_contra hc
            exact hnboth ⟨hsel, hc⟩
          have hd : d = helpPredefinedPayload s := by
            unfold helpPredefinedPayload
            exact (Option.some.inj h).symm
          exact ⟨fun ht => absurd ht (by simp [hb]),
            fun _ hc => absurd hcust hc, fun _ _ => hd⟩
        · rename_i hnsel
          have hsel0 : s.selectedProblem = "" := not_not.mp hnsel
          have hd : d = helpTextPayload s := by
            unfold helpTextPayload
            rw [if_pos hsel0]
            exact (Option.some.inj h).symm
          have hcustne : s.customProblem ≠ "" := by
            intro hc
            apply hguard
            refine ⟨?_, hb⟩
            rw [hsel0, hc]
            decide
          exact ⟨fun ht => absurd ht (by simp [hb]), fun _ _ => hd,
            fun _ hc => absurd hc hcustne⟩

/-- Claim C2: for every help-request submission actually sent, exactly one
of the three request modes is chosen: voice (audio takes precedence) with
`audio_base64` and `request_type` `'voice'`; otherwise text with the
entered text as `query_text`, `request_type` `'text'` and the category
attached exactly when one is selected; otherwise predefined with the
category id itself as `query_text` and `request_type` `'predefined'`. -/
theorem claim_C2 : ∀ (s : HelpFormState) (d : HelpRequestData),
    buildRequestData s = some d →
    ((jsTruthyS s.audioBase64 = true → d = helpVoicePayload s)
      ∧ (jsTruthyS s.audioBase64 = false → s.customProblem ≠ "" →
          d = helpTextPayload s)
      ∧ (jsTruthyS s.audioBase64 = false → s.customProblem = "" →
          d = helpPredefinedPayload s))
    ∧ (helpVoicePayload s).request_type = some "voice"
    ∧ (helpTextPayload s).request_type = some "text"
    ∧ (helpPredefinedPayload s).request_type = some "predefined" :=
  fun _ _ h => ⟨buildRequestData_spec h, rfl, rfl, rfl⟩

/-- Witness for C2: a concrete submission with a category and custom text
is sent in text mode carrying the typed text and the category. -/
theorem claim_C2_witness :
    buildRequestData
        { selectedProblem := "CLASSROOM_DISCIPLINE", customProblem := "hello",
          audioBase64 := none }
      = some (helpTextPayload
        { selectedProblem := "CLASSROOM_DISCIPLINE", customProblem := "hello",
          audioBase64 := none }) := by
  have h : buildRequestData
      { selectedProblem := "CLASSROOM_DISCIPLINE", customProblem := "hello",
        audioBase64 := none }
      = some { query_text := some "hello", audio_base64 := none,
               request_type := some "text",
               category := some "CLASSROOM_DISCIPLINE",
               subject := none, grade := none } := by
    unfold buildRequestData
    rw [if_neg (by decide), if_neg (by decide), if_pos (by decide)]
  rw [h, ((claim_C2 _ _ h).1).2.1 rfl (by decide)]

/-- Claim C1: the frontend sends the teacher's input unmodified — the
typed text as `query_text`, or the recorded audio base64 as
`audio_base64` — in the JSON body of `POST /help/request`, and for every
response containing a (non-empty) `concept_id` it navigates to the
suggestions page built with exactly that `concept_id`; the query is never
altered or resolved client-side. -/
theorem claim_C1 :
    (∀ (s : HelpFormState) (d : HelpRequestData),
        buildRequestData s = some d → jsTruthyS s.audioBase64 = true →
        d.audio_base64 = s.audioBase64
        ∧ jsonObjField d.toJson "audio_base64" = s.audioBase64.map Json.str)
    ∧ (∀ (s : HelpFormState) (d : HelpRequestData),
        buildRequestData s = some d → jsTruthyS s.audioBase64 = false →
        s.customProblem ≠ "" →
        d.query_text = some s.customProblem
        ∧ jsonObjField d.toJson "query_text"
            = some (Json.str s.customProblem))
    ∧ (∀ (env token : Option String) (d : HelpRequestData),
        (createHelpRequestRequest env token d).url
            = apiUrl env ++ "/help/request"
        ∧ (createHelpRequestRequest env token d).method = "POST"
        ∧ (createHelpRequestRequest env token d).body = ReqBody.json d.toJson)
    ∧ (∀ (tf : String → String) (s : HelpFormState) (d : HelpRequestData)
        (r : HelpRespModel) (cid : String),
        buildRequestData s = some d → r.concept_id = some cid → cid ≠ "" →
        (handleSubmitRun tf s (Except.ok r)).nav
          = some (suggestionsUrl cid (jsOrStr s.customProblem s.selectedProblem)
              r.detected_language))
    ∧ (∀ (cid summary : String) (lang : Option String),
        suggestionsUrl cid summary lang
          = "/suggestions?concept_id=" ++ (cid ++ ("&summary="
              ++ (encodeURIComponent summary
              ++ (if jsTruthyS lang then "&lang=" ++ lang.getD ""
                  else ""))))) := by
  refine ⟨?_, ?_, ?_, ?_, ?_⟩
  · intro s d h haud
    have hd := (buildRequestData_spec h).1 haud
    subst hd
    exact ⟨rfl, helpRequest_toJson_audio_base64 _⟩
  · intro s d h hb hc
    have hd := (buildRequestData_spec h).2.1 hb hc
    subst hd
    refine ⟨rfl, ?_⟩
    have := helpRequest_toJson_query_text (helpTextPayload s)
    simpa [helpTextPayload] using this
  · intro env token d
    exact ⟨rfl, rfl, rfl⟩
  · intro tf s d r cid h hcid hne
    have htr : jsTruthyS r.concept_id = true := by
      rw [hcid]
      simp [jsTruthyS, hne]
    simp only [handleSubmitRun, h]
    rw [if_pos htr, hcid]
    rfl
  · intro cid summary lang
    unfold suggestionsUrl
    simp [String.append_assoc]

/-- Witness for C1: a concrete typed query is forwarded and the returned
concept id appears verbatim in the navigation target. -/
theorem claim_C1_witness :
    (handleSubmitRun (fun _ => "")
        { selectedProblem := "", customProblem := "photosynthesis",
          audioBase64 := none }
        (Except.ok { concept_id := some "photosynthesis_process",
                     detected_language := some "en" })).nav
      = some
        "/suggestions?concept_id=photosynthesis_process&summary=photosynthesis&lang=en" := by
  have h : buildRequestData
      { selectedProblem := "", customProblem := "photosynthesis",
        audioBase64 := none }
      = some { query_text := some "photosynthesis", audio_base64 := none,
               request_type := some "text", category := none,
               subject := none, grade := none } := by
    unfold buildRequestData
    rw [if_neg (by decide), if_neg (by decide), if_neg (by decide),
      if_neg (by decide)]
  rw [claim_C1.2.2.2.1 (fun _ => "") _ _
    { concept_id := some "photosynthesis_process",
      detected_language := some "en" } "photosynthesis_process" h rfl
    (by decide)]
  decide

/-- Claim C9: with no category selected, whitespace-only custom text and no
recorded audio, submitting sends no request, sets an error message, resets
the loading flag, and the submit button is disabled. -/
theorem claim_C9 : ∀ (tf : String → String) (s : HelpFormState)
    (resp : Except String HelpRespModel),
    s.selectedProblem = "" → jsTrim s.customProblem = "" →
    s.audioBase64 = none →
    (handleSubmitRun tf s resp).requests = []
    ∧ (handleSubmitRun tf s resp).error ≠ ""
    ∧ (handleSubmitRun tf s resp).loading = false
    ∧ submitDisabled false s = true := by
  intro tf s resp h1 h2 h3
  have hq : jsTrim (jsOrStr s.selectedProblem s.customProblem) = "" := by
    rw [h1]
    simpa [jsOrStr] using h2
  have ha : jsTruthyS s.audioBase64 = false := by
    rw [h3]
    rfl
  have hnone : buildRequestData s = none := by
    unfold buildRequestData
    rw [if_pos ⟨hq, ha⟩]
  refine ⟨?_, ?_, ?_, ?_⟩
  · simp [handleSubmitRun, hnone]
  · simp only [handleSubmitRun, hnone]
    exact jsOrStr_ne_empty (by decide)
  · simp [handleSubmitRun, hnone]
  · simp [submitDisabled, h1, h2, h3, jsTruthyS]

/-- Witness for C9: the empty form (whitespace-only text) sends nothing and
the button is disabled. -/
theorem claim_C9_witness :
    (handleSubmitRun (fun _ => "")
        { selectedProblem := "", customProblem := "   ", audioBase64 := none }
        (Except.error "boom")).requests = []
    ∧ submitDisabled false
        { selectedProblem := "", customProblem := "   ",
          audioBase64 := none } = true := by
  have h := claim_C9 (fun _ => "")
    { selectedProblem := "", customProblem := "   ", audioBase64 := none }
    (Except.error "boom") rfl (by decide) rfl
  exact ⟨h.1, h.2.2.2⟩

/-- Claim C4: `getSuggestions(conceptId)` issues
`GET /suggestions?concept_id=<conceptId>`, and the suggestions page fetches
both the suggestions and the concept for exactly the `concept_id` of its
URL, redirecting to `/help` when none is present. -/
theorem claim_C4 :
    (∀ (env token : Option String) (conceptId : String),
        (getSuggestionsRequest env token conceptId).url
            = apiUrl env ++ ("/suggestions?concept_id=" ++ conceptId)
        ∧ (getSuggestionsRequest env token conceptId).method = "GET")
    ∧ (∀ env token : Option String,
        suggestionsPageLoad env token none
          = SuggestionsPageEffect.redirect "/help")
    ∧ (∀ (env token : Option String) (cid : String), cid ≠ "" →
        suggestionsPageLoad env token (some cid)
          = SuggestionsPageEffect.fetchPair
              (getSuggestionsRequest env token cid)
              (getConceptRequest env token cid)) := by
  refine ⟨fun env token cid => ⟨rfl, rfl⟩, fun env token => rfl, ?_⟩
  intro env token cid hne
  unfold suggestionsPageLoad
  rw [if_pos (by simp [jsTruthyS, hne])]
  rfl

/-- Witness for C4: a concrete concept id is fetched from both endpoints
and the suggestion URL carries it verbatim. -/
theorem claim_C4_witness :
    suggestionsPageLoad none none (some "fractions")
      = SuggestionsPageEffect.fetchPair
          (getSuggestionsRequest none none "fractions")
          (getConceptRequest none none "fractions")
    ∧ (getSuggestionsRequest none none "fractions").url
        = "http://localhost:8000/suggestions?concept_id=fractions" := by
  refine ⟨claim_C4.2.2 none none "fractions" (by decide), ?_⟩
  rw [(claim_C4.1 none none "fractions").1]
  decide

theorem append_ne_empty_left (a b : String) (ha : a ≠ "") : a ++ b ≠ "" := by
  intro he
  apply ha
  have hlen := congrArg String.length he
  rw [String.length_append,
    show ("" : String).length = 0 from rfl] at hlen
  have h0 : a.length = 0 := by omega
  cases a with
  | mk dataA =>
    cases dataA with
    | nil => rfl
    | cons c t => simp [String.length] at h0

/-- Claim C6: the community page requests
`GET /community/feed?tab=<activeTab>&limit=20` and renders the returned
items in exactly the returned order (the i-th card shows the i-th item),
with no client-side sorting. -/
theorem claim_C6 :
    (∀ (env token : Option String) (tab : String), tab ≠ "" →
        (communityFetchFeedRequest env token tab).url
          = apiUrl env
              ++ ("/community/feed" ++ ("?" ++ ("tab=" ++ tab ++ "&" ++ "limit=20")))
        ∧ (communityFetchFeedRequest env token tab).method = "GET")
    ∧ (∀ (feed : List FeedItem) (i : Nat),
        (communityDisplay feed)[i]? = (feed[i]?).map mkFeedCard) := by
  constructor
  · intro env token tab hne
    have htab : jsTruthyS (some tab) = true := by simp [jsTruthyS, hne]
    have hparams : communityFeedParams (some tab) (some 20) none
        = [("tab", tab), ("limit", "20")] := by
      unfold communityFeedParams
      rw [if_pos htab, if_pos (by decide), if_neg (by decide)]
      rfl
    have hq : urlParamsToString [("tab", tab), ("limit", "20")]
        = "tab=" ++ tab ++ "&" ++ "limit=20" := rfl
    have hqne : ("tab=" ++ tab ++ "&" ++ "limit=20") ≠ "" :=
      append_ne_empty_left _ _ (append_ne_empty_left _ _
        (append_ne_empty_left _ _ (by decide)))
    unfold communityFetchFeedRequest getCommunityFeedRequest
    rw [hparams, hq, if_neg hqne]
    exact ⟨rfl, rfl⟩
  · intro feed i
    simp [communityDisplay, List.getElem?_map]

/-- Witness for C6: the concrete request for the `all` tab, and order
preservation on a two-item feed. -/
theorem claim_C6_witness :
    (communityFetchFeedRequest none none "all").url
      = "http://localhost:8000/community/feed?tab=all&limit=20"
    ∧ (communityDisplay
        [{ id := "a", concept_id := "c1", source_type := "help_request",
           title := "t1", created_at := "2024" },
         { id := "b", concept_id := "c2", source_type := "upload",
           title := "t2", created_at := "2024" }])[0]?
      = some { id := "a", helpOutTarget := "/help-request/a" } := by
  constructor
  · rw [(claim_C6.1 none none "all" (by decide)).1]
    decide
  · rw [claim_C6.2
      [{ id := "a", concept_id := "c1", source_type := "help_request",
         title := "t1", created_at := "2024" },
       { id := "b", concept_id := "c2", source_type := "upload",
         title := "t2", created_at := "2024" }] 0]
    rfl

/-- Claim C7: every invocation of an API client function issues exactly
one HTTP request, whatever the response outcome, and a failing response
makes the result an immediately thrown error (no re-send). -/
theorem claim_C7 :
    (∀ (env token : Option String) (endpoint method : String)
        (body : ReqBody) (resp : HttpResponse),
        (apiFetchRun env token endpoint method body resp).1.length = 1
        ∧ (resp.ok = false →
            (apiFetchRun env token endpoint method body resp).2
              = Except.error (errDetailMsg "Request failed" resp.body)))
    ∧ (∀ (env : Option String) (phone password : String)
        (resp : HttpResponse),
        (loginRun env phone password resp).1.length = 1
        ∧ (resp.ok = false →
            (loginRun env phone password resp).2
              = Except.error (errDetailMsg "Login failed" resp.body)))
    ∧ (∀ (env token : Option String) (formData : List (String × String))
        (resp : HttpResponse),
        (uploadContentWithFileRun env token formData resp).1.length = 1
        ∧ (resp.ok = false →
            (uploadContentWithFileRun env token formData resp).2
              = Except.error (errDetailMsg "Upload failed" resp.body))) := by
  refine ⟨fun env token e m b resp => ⟨rfl, fun hok => ?_⟩,
    fun env p w resp => ⟨rfl, fun hok => ?_⟩,
    fun env token fd resp => ⟨rfl, fun hok => ?_⟩⟩
  · simp [apiFetchRun, apiFetchResult, hok]
  · simp [loginRun, loginResult, hok]
  · simp [uploadContentWithFileRun, uploadFileResult, hok]

/-- Witness for C7: a failed request was sent exactly once and throws. -/
theorem claim_C7_witness :
    (apiFetchRun none none "/points" "GET" ReqBody.empty
        { ok := false, body := Except.error () }).1.length = 1
    ∧ (apiFetchRun none none "/points" "GET" ReqBody.empty
        { ok := false, body := Except.error () }).2
        = Except.error "Request failed" := by
  have h := claim_C7.1 none none "/points" "GET" ReqBody.empty
    { ok := false, body := Except.error () }
  exact ⟨h.1, h.2 rfl⟩

/-- Claim C8 (amended): for every non-null, non-empty token `t`,
`getAuthToken()` after `setAuthToken(t)` returns `t` (and in a browser the
token is persisted to storage); after `setAuthToken(null)` the in-memory
token is cleared and the storage entry removed, so `getAuthToken()` reads
whatever remains in storage, or null.  (The original claim fails for the
empty-string token, see the counterexample.) -/
theorem claim_C8 :
    (∀ (b : Bool) (st : TokenStore) (t : String), t ≠ "" →
        (getAuthTokenRun b (setAuthToken b (some t) st)).2 = some t
        ∧ (b = true → (setAuthToken b (some t) st).storage = some t))
    ∧ (∀ st : TokenStore,
        (setAuthToken true none st).authToken = none
        ∧ (setAuthToken true none st).storage = none)
    ∧ (∀ st : TokenStore, st.authToken = none →
        (getAuthTokenRun true st).2 = st.storage)
    ∧ (∀ st : TokenStore,
        (getAuthTokenRun true (setAuthToken true none st)).2 = none) := by
  refine ⟨?_, ?_, ?_, ?_⟩
  · intro b st t ht
    have htr : jsTruthyS (some t) = true := by simp [jsTruthyS, ht]
    cases b
    · constructor
      · simp [setAuthToken, getAuthTokenRun, htr]
      · intro hfalse
        exact absurd hfalse (by simp)
    · constructor
      · simp [setAuthToken, getAuthTokenRun, htr]
      · intro _
        simp [setAuthToken, htr]
  · intro st
    constructor
    · simp [setAuthToken, jsTruthyS]
    · simp [setAuthToken, jsTruthyS]
  · intro st h
    simp [getAuthTokenRun, h, jsTruthyS]
  · intro st
    simp [setAuthToken, getAuthTokenRun, jsTruthyS]

/-- Witness for C8: a concrete non-empty token round-trips and is
persisted. -/
theorem claim_C8_witness :
    (getAuthTokenRun true
        (setAuthToken true (some "tok")
          { authToken := none, storage := none })).2 = some "tok"
    ∧ (setAuthToken true (some "tok")
        { authToken := none, storage := none }).storage = some "tok" := by
  have h := claim_C8.1 true { authToken := none, storage := none } "tok"
    (by decide)
  exact ⟨h.1, h.2 rfl⟩

/-- Counterexample to C8 as stated: the empty string is a non-null token,
yet after `setAuthToken('')` in a browser the storage entry is removed and
`getAuthToken()` returns null, not `''`. -/
theorem claim_C8_counterexample :
    (getAuthTokenRun true
        (setAuthToken true (some "")
          { authToken := none, storage := none })).2 = none
    ∧ (setAuthToken true (some "")
        { authToken := some "x", storage := some "x" }).storage = none
    ∧ (some "" : Option String) ≠ none := by
  refine ⟨rfl, rfl, by decide⟩

/-- Claim C3: while recording, every non-empty data chunk is buffered in
arrival order (`startRecording` having cleared the buffer); on stop the
buffered chunks are concatenated into a single `audio/webm` blob,
`audioBase64` is set to the base64 payload of that blob's data URL (the
part after the comma), and all microphone tracks are stopped. -/
theorem claim_C3 : ∀ (s0 : RecorderState) (n : Nat) (ds : List (List Nat)),
    (recStartRecording s0 n).chunks = []
    ∧ (ds.foldl recOnDataAvailable (recStartRecording s0 n)).chunks
        = ds.filter (fun d => decide (0 < d.length))
    ∧ (recStopRecording
        (ds.foldl recOnDataAvailable (recStartRecording s0 n))).audioBlob
        = some { bytes := (ds.filter (fun d => decide (0 < d.length))).flatten,
                 type := "audio/webm" }
    ∧ (recStopRecording
        (ds.foldl recOnDataAvailable (recStartRecording s0 n))).audioBase64
        = some (b64chars (ds.filter (fun d => decide (0 < d.length))).flatten)
    ∧ (recStopRecording
        (ds.foldl recOnDataAvailable (recStartRecording s0 n))).tracks
        = List.replicate n true
    ∧ (recStopRecording
        (ds.foldl recOnDataAvailable (recStartRecording s0 n))).isRecording
        = false := by
  intro s0 n ds
  obtain ⟨h1, h2, h3, _, _, _⟩ :=
    recorder_fold_fields ds (recStartRecording s0 n)
  have hchunks : (ds.foldl recOnDataAvailable (recStartRecording s0 n)).chunks
      = ds.filter (fun d => decide (0 < d.length)) := by
    rw [h1]
    rfl
  have hrec : (ds.foldl recOnDataAvailable
      (recStartRecording s0 n)).isRecording = true := by
    rw [h2]
    rfl
  have htracks : (ds.foldl recOnDataAvailable
      (recStartRecording s0 n)).tracks = List.replicate n false := by
    rw [h3]
    rfl
  have hstop : recStopRecording
      (ds.foldl recOnDataAvailable (recStartRecording s0 n))
      = { recOnStop (ds.foldl recOnDataAvailable (recStartRecording s0 n))
          with isRecording := false } := by
    unfold recStopRecording
    rw [if_pos hrec]
  refine ⟨rfl, hchunks, ?_, ?_, ?_, ?_⟩
  · rw [hstop]
    show (recOnStop _).audioBlob = _
    unfold recOnStop
    rw [hchunks]
  · rw [hstop]
    show (recOnStop _).audioBase64 = _
    unfold recOnStop
    rw [hchunks]
    exact dataUrl_split_payload _
  · rw [hstop]
    show (recOnStop _).tracks = _
    unfold recOnStop
    rw [htracks]
    simp [List.map_replicate]
  · rw [hstop]

/-- Claim C10: `t(key)` returns the key itself whenever the dot-path does
not resolve to a string; when it resolves to a string and params are
given, each placeholder `\x7b\x7bname\x7d\x7d` is replaced by the
stringified parameter value, and a placeholder whose parameter is absent
or whose stringified value is falsy (empty) is left verbatim. -/
theorem claim_C10 :
    (∀ (tr : List (String × TransValue)) (key : String)
        (params : Option (List (String × String))),
        (∀ s, navigateKeys (some (TransValue.obj tr)) (jsSplitDots key)
            ≠ some (TransValue.str s)) →
        tFun tr key params = key)
    ∧ (∀ (tr : List (String × TransValue)) (key : String)
        (ps : List (String × String)) (tpl : List TplPiece) (s : String),
        navigateKeys (some (TransValue.obj tr)) (jsSplitDots key)
            = some (TransValue.str s) →
        s.data = renderTpl tpl → wfTpl tpl = true →
        tFun tr key (some ps) = String.mk (renderTplSubst ps tpl))
    ∧ (∀ (ps : List (String × String)) (n : List Char) (v : String),
        lookupParam ps (String.mk n) = some v → v ≠ "" →
        replacePlaceholder ps n = v.data)
    ∧ (∀ (ps : List (String × String)) (n : List Char),
        lookupParam ps (String.mk n) = none →
        replacePlaceholder ps n = placeholderOf n)
    ∧ (∀ (ps : List (String × String)) (n : List Char),
        lookupParam ps (String.mk n) = some "" →
        replacePlaceholder ps n = placeholderOf n) := by
  refine ⟨?_, ?_, ?_, ?_, ?_⟩
  · intro tr key params hnav
    unfold tFun
    split
    · rename_i s hs
      exact absurd hs (hnav s)
    · rfl
  · intro tr key ps tpl s hnav hdata hwf
    unfold tFun
    rw [hnav]
    show String.mk (substParams ps s.data) = String.mk (renderTplSubst ps tpl)
    rw [hdata, substParams_render ps tpl hwf]
  · intro ps n v hv hne
    unfold replacePlaceholder
    rw [hv]
    show (if v = "" then placeholderOf n else v.data) = v.data
    rw [if_neg hne]
  · intro ps n hv
    unfold replacePlaceholder
    rw [hv]
  · intro ps n hv
    unfold replacePlaceholder
    rw [hv]
    show (if ("" : String) = "" then placeholderOf n else ("" : String).data)
        = placeholderOf n
    rw [if_pos rfl]

/-- Witness for C10: a concrete nested key with one substituted
placeholder and one left verbatim, plus a missing key returning itself. -/
theorem claim_C10_witness :
    tFun [("help", TransValue.obj
        [("points", TransValue.str
          "You have \x7b\x7bcount\x7d\x7d points, \x7b\x7bname\x7d\x7d")])]
      "help.points" (some [("count", "7")])
      = "You have 7 points, \x7b\x7bname\x7d\x7d"
    ∧ tFun [("help", TransValue.obj [])] "help.missing" none
      = "help.missing" := by
  constructor
  · rw [claim_C10.2.1
      [("help", TransValue.obj
        [("points", TransValue.str
          "You have \x7b\x7bcount\x7d\x7d points, \x7b\x7bname\x7d\x7d")])]
      "help.points" [("count", "7")]
      [TplPiece.lit "You have ", TplPiece.hole "count",
       TplPiece.lit " points, ", TplPiece.hole "name"]
      "You have \x7b\x7bcount\x7d\x7d points, \x7b\x7bname\x7d\x7d"
      rfl (by decide) (by decide)]
    decide
  · exact claim_C10.1 [("help", TransValue.obj [])] "help.missing" none
      (fun s h => by simp [navigateKeys, jsSplitDots, splitOnDotList,
        lookupTransField] at h)

/-- Claim C5 (amended): every API operation except `login` and the two
multipart upload helpers goes through the single `apiFetch` wrapper, which
for every endpoint and options prefixes the configured `API_URL`, attaches
`Authorization: Bearer <token>` exactly when a non-empty token is stored,
on a non-OK response throws an `Error` whose message is the body's
`detail` — falling back to `'Request failed'` when the body is not JSON,
has no `detail`, or its `detail` is falsy — and on an OK response returns
the parsed JSON body.  `login` and the upload helpers call `fetch`
directly with the same `API_URL` prefix but their own fallback messages
(`'Login failed'`, `'Upload failed'`), the upload helpers attaching the
bearer header exactly when a token is stored while `login` never does.
(The original claim fails at `login`, see the counterexample.) -/
theorem claim_C5 :
    (∀ (env token : Option String) (endpoint method : String)
        (body : ReqBody),
        (apiFetchRequest env token endpoint method body).url
            = apiUrl env ++ endpoint
        ∧ (jsTruthyS token = true →
            (apiFetchRequest env token endpoint method body).headers
              = [("Content-Type", "application/json"),
                 ("Authorization", "Bearer " ++ token.getD "")])
        ∧ (jsTruthyS token = false →
            (apiFetchRequest env token endpoint method body).headers
              = [("Content-Type", "application/json")])
        ∧ hasAuthHeader (apiFetchRequest env token endpoint method body)
            = jsTruthyS token)
    ∧ (∀ resp : HttpResponse, resp.ok = false →
        apiFetchResult resp
          = Except.error (errDetailMsg "Request failed" resp.body))
    ∧ (∀ (j : Json) (s : String), jsonDetailStr j = some s → s ≠ "" →
        errDetailMsg "Request failed" (Except.ok j) = s)
    ∧ (∀ j : Json, jsonDetailStr j = none →
        errDetailMsg "Request failed" (Except.ok j) = "Request failed")
    ∧ (∀ j : Json, jsonDetailStr j = some "" →
        errDetailMsg "Request failed" (Except.ok j) = "Request failed")
    ∧ errDetailMsg "Request failed" (Except.error ()) = "Request failed"
    ∧ (∀ (resp : HttpResponse) (j : Json), resp.ok = true →
        resp.body = Except.ok j → apiFetchResult resp = Except.ok j)
    ∧ ((∀ (env token : Option String) (d : RegisterData),
          registerRequest env token d
            = apiFetchRequest env token "/auth/register" "POST"
                (ReqBody.json d.toJson))
      ∧ (∀ env token : Option String,
          getCurrentUserRequest env token
            = apiFetchRequest env token "/auth/me" "GET" ReqBody.empty)
      ∧ (∀ (env token : Option String) (language : String),
          updateLanguagePreferenceRequest env token language
            = apiFetchRequest env token
                ("/auth/me/language?language=" ++ language) "PATCH"
                ReqBody.empty)
      ∧ (∀ (env token language : Option String),
          getConceptsRequest env token language
            = apiFetchRequest env token
                ("/concepts" ++ (if jsTruthyS language then
                    "?language=" ++ language.getD "" else ""))
                "GET" ReqBody.empty)
      ∧ (∀ (env token : Option String) (conceptId : String),
          getConceptRequest env token conceptId
            = apiFetchRequest env token ("/concepts/" ++ conceptId) "GET"
                ReqBody.empty)
      ∧ (∀ (env token : Option String) (d : HelpRequestData),
          createHelpRequestRequest env token d
            = apiFetchRequest env token "/help/request" "POST"
                (ReqBody.json d.toJson))
      ∧ (∀ env token : Option String,
          getHelpRequestsRequest env token
            = apiFetchRequest env token "/help/recent" "GET" ReqBody.empty)
      ∧ (∀ (env token : Option String) (id : String),
          getHelpRequestByIdRequest env token id
            = apiFetchRequest env token ("/help/request/" ++ id) "GET"
                ReqBody.empty)
      ∧ (∀ (env token : Option String) (id : String),
          getHelpRequestRequest env token id
            = apiFetchRequest env token ("/help/request/" ++ id) "GET"
                ReqBody.empty)
      ∧ (∀ (env token : Option String) (id : String) (d : HelpResponseData),
          addHelpResponseRequest env token id d
            = apiFetchRequest env token ("/help/request/" ++ id ++ "/respond")
                "POST" (ReqBody.json d.toJson))
      ∧ (∀ (env token : Option String) (conceptId : String),
          getSuggestionsRequest env token conceptId
            = apiFetchRequest env token
                ("/suggestions?concept_id=" ++ conceptId) "GET"
                ReqBody.empty)
      ∧ (∀ (env token : Option String) (d : UploadContentData),
          uploadContentRequest env token d
            = apiFetchRequest env token "/content/upload" "POST"
                (ReqBody.json d.toJson))
      ∧ (∀ (env token : Option String) (contentId : String),
          getContentByIdRequest env token contentId
            = apiFetchRequest env token ("/content/" ++ contentId) "GET"
                ReqBody.empty)
      ∧ (∀ (env token : Option String) (contentId : String)
            (d : FeedbackData),
          addFeedbackRequest env token contentId d
            = apiFetchRequest env token
                ("/content/" ++ contentId ++ "/feedback") "POST"
                (ReqBody.json d.toJson))
      ∧ (∀ env token : Option String,
          checkCloudinaryStatusRequest env token
            = apiFetchRequest env token "/content/cloudinary-status" "GET"
                ReqBody.empty)
      ∧ (∀ env token : Option String,
          getMyPointsRequest env token
            = apiFetchRequest env token "/points" "GET" ReqBody.empty)
      ∧ (∀ env token : Option String,
          getPointsRequest env token
            = apiFetchRequest env token "/points" "GET" ReqBody.empty)
      ∧ (∀ (env token : Option String) (limit : Option Nat),
          getLeaderboardRequest env token limit
            = apiFetchRequest env token
                ("/points/leaderboard" ++ optLimitParams limit) "GET"
                ReqBody.empty)
      ∧ (∀ (env token : Option String) (limit : Option Nat),
          getNotificationsRequest env token limit
            = apiFetchRequest env token
                ("/notifications" ++ optLimitParams limit) "GET"
                ReqBody.empty)
      ∧ (∀ env token : Option String,
          getUnreadNotificationCountRequest env token
            = apiFetchRequest env token "/notifications" "GET" ReqBody.empty)
      ∧ (∀ (env token : Option String) (id : String),
          markNotificationReadRequest env token id
            = apiFetchRequest env token ("/notifications/" ++ id ++ "/read")
                "POST" ReqBody.empty)
      ∧ (∀ (env token : Option String) (id : String),
          markNotificationAsReadRequest env token id
            = apiFetchRequest env token ("/notifications/" ++ id ++ "/read")
                "POST" ReqBody.empty)
      ∧ (∀ env token : Option String,
          markAllNotificationsReadRequest env token
            = apiFetchRequest env token "/notifications/read-all" "POST"
                ReqBody.empty)
      ∧ (∀ env token : Option String,
          markAllNotificationsAsReadRequest env token
            = apiFetchRequest env token "/notifications/read-all" "POST"
                ReqBody.empty)
      ∧ (∀ env token : Option String,
          getAIStatusRequest env token
            = apiFetchRequest env token "/ai/status" "GET" ReqBody.empty)
      ∧ (∀ (env token : Option String) (title : String)
            (description : Option String),
          suggestTopicRequest env token title description
            = apiFetchRequest env token "/ai/suggest-topic" "POST"
                (ReqBody.json (suggestTopicBody title description)))
      ∧ (∀ (env token : Option String) (topicId topicName : String)
            (hi kn : Option String) (se sh sk : Option (List String))
            (subject grade : Option String),
          createTopicWithTranslationsRequest env token topicId topicName
              hi kn se sh sk subject grade
            = apiFetchRequest env token "/ai/create-topic" "POST"
                (ReqBody.json (createTopicBody topicId topicName hi kn
                  se sh sk subject grade)))
      ∧ (∀ (env token : Option String) (contentId : String),
          recordContentViewRequest env token contentId
            = apiFetchRequest env token ("/content/" ++ contentId ++ "/view")
                "POST" ReqBody.empty)
      ∧ (∀ (env token : Option String) (contentId : String),
          toggleContentLikeRequest env token contentId
            = apiFetchRequest env token ("/content/" ++ contentId ++ "/like")
                "POST" ReqBody.empty)
      ∧ (∀ (env token tab : Option String) (limit offset : Option Nat),
          getCommunityFeedRequest env token tab limit offset
            = apiFetchRequest env token
                ("/community/feed"
                  ++ (if urlParamsToString
                        (communityFeedParams tab limit offset) = ""
                      then ""
                      else "?" ++ urlParamsToString
                        (communityFeedParams tab limit offset)))
                "GET" ReqBody.empty)
      ∧ (∀ (env token : Option String) (limit : Option Nat),
          getRecentHelpRequestsRequest env token limit
            = apiFetchRequest env token
                ("/help/recent" ++ optLimitParams limit) "GET"
                ReqBody.empty))
    ∧ ((∀ (env : Option String) (phone password : String),
          (loginRequest env phone password).url = apiUrl env ++ "/auth/login"
          ∧ hasAuthHeader (loginRequest env phone password) = false)
      ∧ (∀ resp : HttpResponse, resp.ok = false →
          loginResult resp
            = Except.error (errDetailMsg "Login failed" resp.body))
      ∧ (∀ (env token : Option String) (fd : List (String × String)),
          (uploadContentWithFileRequest env token fd).url
              = apiUrl env ++ "/content/upload-file"
          ∧ hasAuthHeader (uploadContentWithFileRequest env token fd)
              = jsTruthyS token)
      ∧ (∀ resp : HttpResponse, resp.ok = false →
          uploadFileResult resp
            = Except.error (errDetailMsg "Upload failed" resp.body))) := by
  refine ⟨?_, ?_, ?_, ?_, ?_, rfl, ?_, ?_, ?_⟩
  · intro env token endpoint method body
    refine ⟨rfl, fun ht => ?_, fun hf => ?_, ?_⟩
    · simp [apiFetchRequest, ht]
    · simp [apiFetchRequest, hf]
    · cases htok : jsTruthyS token
      · simp [apiFetchRequest, hasAuthHeader, htok]
      · simp [apiFetchRequest, hasAuthHeader, htok]
  · intro resp hok
    simp [apiFetchResult, hok]
  · intro j s hj hs
    simp [errDetailMsg, hj, jsOrStr, hs]
  · intro j hj
    simp [errDetailMsg, hj]
  · intro j hj
    simp [errDetailMsg, hj, jsOrStr]
  · intro resp j hok hbody
    simp [apiFetchResult, hok, hbody]
  · exact ⟨fun _ _ _ => rfl, fun _ _ => rfl, fun _ _ _ => rfl,
      fun _ _ _ => rfl, fun _ _ _ => rfl, fun _ _ _ => rfl, fun _ _ => rfl,
      fun _ _ _ => rfl, fun _ _ _ => rfl, fun _ _ _ _ => rfl,
      fun _ _ _ => rfl, fun _ _ _ => rfl, fun _ _ _ => rfl,
      fun _ _ _ _ => rfl, fun _ _ => rfl, fun _ _ => rfl, fun _ _ => rfl,
      fun _ _ _ => rfl, fun _ _ _ => rfl, fun _ _ => rfl, fun _ _ _ => rfl,
      fun _ _ _ => rfl, fun _ _ => rfl, fun _ _ => rfl, fun _ _ => rfl,
      fun _ _ _ _ => rfl, fun _ _ _ _ _ _ _ _ _ _ _ => rfl,
      fun _ _ _ => rfl, fun _ _ _ => rfl, fun _ _ _ _ _ => rfl,
      fun _ _ _ => rfl⟩
  · refine ⟨fun env p w => ⟨rfl, rfl⟩, fun resp hok => ?_, ?_,
      fun resp hok => ?_⟩
    · simp [loginResult, hok]
    · intro env token fd
      refine ⟨rfl, ?_⟩
      cases htok : jsTruthyS token
      · simp [uploadContentWithFileRequest, hasAuthHeader, htok]
      · simp [uploadContentWithFileRequest, hasAuthHeader, htok]
    · simp [uploadFileResult, hok]

/-- Witness for C5 (amended): a stored token yields the bearer header, and
a failed response surfaces the body's `detail`. -/
theorem claim_C5_witness :
    hasAuthHeader (apiFetchRequest none (some "tok") "/points" "GET"
        ReqBody.empty) = true
    ∧ apiFetchResult
        (HttpResponse.mk false (Except.ok (Json.obj
          [("detail", Json.str "Invalid credentials")])))
      = Except.error "Invalid credentials" := by
  constructor
  · rw [(claim_C5.1 none (some "tok") "/points" "GET" ReqBody.empty).2.2.2]
    decide
  · rw [claim_C5.2.1
        (HttpResponse.mk false (Except.ok (Json.obj
          [("detail", Json.str "Invalid credentials")]))) rfl,
      claim_C5.2.2.1 (Json.obj [("detail", Json.str "Invalid credentials")])
        "Invalid credentials" rfl (by decide)]

/-- Counterexample to C5 as stated: `login` is an API operation that does
not go through the wrapper — it never attaches the Authorization header,
and its non-JSON-body failure message is `'Login failed'`, not
`'Request failed'`. -/
theorem claim_C5_counterexample :
    (loginRequest none "9999999999" "pw").headers
        = [("Content-Type", "application/json")]
    ∧ hasAuthHeader (loginRequest none "9999999999" "pw") = false
    ∧ loginResult (HttpResponse.mk false (Except.error ()))
        = Except.error "Login failed"
    ∧ "Login failed" ≠ "Request failed" := by
  refine ⟨rfl, rfl, rfl, by decide⟩
